import Mathlib

/-!
Verification of the bookshelf data-access layer (Rust sources under
src/src-tauri/src): the generic resource pool (pool.rs), the pool registry
(books.rs), and the sqlite store with its dynamic query builder
(books/store.rs, books/models.rs).

The Rust code is shallowly embedded: Rust String becomes Lean String,
Vec becomes List, u64 becomes Nat, i64 becomes Int, Result becomes Except,
and a Rust panic (unwrap / expect on a failing value) is modelled by the
none case of Option.  Database tables are association lists from row id to
row content; a transaction is explicit state passing where the error path
returns the original state (rollback).
-/

namespace Bookshelf

/-- Rust String.pop: removes the last character. -/
def rsPop (s : String) : String := ⟨s.data.dropLast⟩

/-! ## models.rs -/

/-- models.rs BookError.  The Box dyn Error payload of DBError is modelled
as its message string. -/
inductive BookError where
  | Generic (msg : String)
  | NotFound
  | DBError (msg : String)
  | EmptyAuthors
deriving DecidableEq, Repr

/-- rusqlite errors, as far as the store distinguishes them: the
QueryReturnedNoRows case versus everything else. -/
inductive RusqliteError where
  | QueryReturnedNoRows
  | Other (msg : String)
deriving DecidableEq, Repr

/-- store.rs impl From rusqlite Error for BookError: QueryReturnedNoRows
becomes NotFound, everything else is wrapped as DBError. -/
def BookError.fromRusqlite : RusqliteError → BookError
  | .QueryReturnedNoRows => .NotFound
  | .Other m => .DBError m

/-- models.rs SortOrder. -/
inductive SortOrder where
  | Asc
  | Desc
deriving DecidableEq, Repr

/-- models.rs SortDescriptor(pub String, pub SortOrder): col is field .0,
ord is field .1. -/
structure SortDescriptor where
  col : String
  ord : SortOrder
deriving DecidableEq, Repr

/-- models.rs SearchConfig.  The typestate parameter (ConfigNew versus
ConfigInitialized) is a compile-time phantom with no runtime content, so
the embedding uses one structure; build is the identity on the data. -/
structure SearchConfig where
  skip : Option Nat
  sort : Option (List SortDescriptor)
  take : Option Nat
  text : String
deriving DecidableEq, Repr

def SearchConfig.new (txt : String) : SearchConfig :=
  { skip := none, sort := none, take := none, text := txt }

def SearchConfig.use_skip_page (c : SearchConfig) (skip : Nat) : SearchConfig :=
  { c with skip := some skip }

def SearchConfig.use_take (c : SearchConfig) (take : Nat) : SearchConfig :=
  { c with take := some take }

def SearchConfig.use_sort (c : SearchConfig) (sort : List SortDescriptor) : SearchConfig :=
  { c with sort := some sort }

/-- models.rs SearchConfig.build: moves the fields unchanged into the
initialized state. -/
def SearchConfig.build (c : SearchConfig) : SearchConfig := c

/-- models.rs StoreResult. -/
structure StoreResult (T : Type) where
  total : Nat
  skipped : Nat
  items : List T
deriving DecidableEq, Repr

/-! ## store.rs QueryBuilder -/

/-- store.rs SELECT_BOOKS_QUERY. -/
def SELECT_BOOKS_QUERY : String :=
  "SELECT id, cover_img, description, isbn, lang, title, sub_title,\npublisher, publish_date, created, updated FROM books"

/-- The columns of the books table, as listed by SELECT_BOOKS_QUERY.  Used
only to state what an allow-list of known sort columns would be; the source
has no such list. -/
def knownColumns : List String :=
  ["id", "cover_img", "description", "isbn", "lang", "title", "sub_title",
   "publisher", "publish_date", "created", "updated"]

/-- One iteration of the sort loop in QueryBuilder::new: the text pushed
for descriptor d ( with the trailing comma). -/
def sortItem (d : SortDescriptor) : String :=
  match d.ord with
  | .Asc => " " ++ d.col ++ " ASC,"
  | .Desc => " " ++ d.col ++ " DESC,"

/-- The ORDER BY fragment built by QueryBuilder::new: for a non-empty sort
list, push ORDER BY, push one item per descriptor in order, pop the final
comma, push a space; otherwise the empty string. -/
def sortFragment : Option (List SortDescriptor) → String
  | some sort =>
      if sort.isEmpty then ""
      else rsPop (sort.foldl (fun acc d => acc ++ sortItem d) ("" ++ "ORDER BY")) ++ " "
  | none => ""

/-- The LIMIT fragment appended by QueryBuilder::new together with the
skipped field it records: with take = some l and skip page = some s, s > 0,
it appends LIMIT l, s and records skipped = s; with take set and no
positive skip it appends LIMIT l; with no take it appends nothing. -/
def limitFragment (sf : String) : Option Nat → Option Nat → String × Nat
  | some l, some s =>
      if 0 < s then (sf ++ ("LIMIT " ++ toString l ++ ", " ++ toString s), s)
      else (sf ++ ("LIMIT " ++ toString l), 0)
  | some l, none => (sf ++ ("LIMIT " ++ toString l), 0)
  | none, _ => (sf, 0)

/-- store.rs QueryBuilder.  The positional rusqlite parameters (dyn ToSql)
are modelled as strings. -/
structure QueryBuilder where
  query : String
  text : String
  filter : Option String
  skipped : Nat
  sort_limit : String
  search_params : Option (List String)
  params : Option (List String)
deriving DecidableEq, Repr

/-- store.rs QueryBuilder::new. -/
def QueryBuilder.new (query : String) (config : SearchConfig) : QueryBuilder :=
  { query := query
    text := config.text
    filter := none
    skipped := (limitFragment (sortFragment config.sort) config.take config.skip).snd
    sort_limit := (limitFragment (sortFragment config.sort) config.take config.skip).fst
    search_params := none
    params := none }

/-- store.rs QueryBuilder::use_where_clause. -/
def QueryBuilder.use_where_clause (b : QueryBuilder)
    (transform : String → String × List String) : Except BookError QueryBuilder :=
  if b.params.isSome then
    .error (.Generic "Either use use_where_clause or use_params")
  else if b.text = "" then .ok b
  else
    let fl := transform b.text
    if fl.fst = "" then .ok b
    else .ok { b with filter := some ("WHERE " ++ fl.fst), search_params := some fl.snd }

/-- store.rs QueryBuilder::use_params. -/
def QueryBuilder.use_params (b : QueryBuilder) (ps : List String) :
    Except BookError QueryBuilder :=
  if b.filter.isSome then
    .error (.Generic "Either use use_where_clause or use_params")
  else .ok { b with params := some ps }

/-- The filtered base query assembled at the start of QueryBuilder::fetch:
the base query, with the WHERE filter appended after a space when one was
set. -/
def QueryBuilder.filteredQuery (b : QueryBuilder) : String :=
  b.query ++ (match b.filter with | some f => " " ++ f | none => "")

/-- The count query executed by QueryBuilder::fetch, built from the
filtered base query before the sort and limit fragment is appended. -/
def QueryBuilder.countQuery (b : QueryBuilder) : String :=
  "SELECT COUNT(*) FROM (" ++ b.filteredQuery ++ ");"

/-- The parameters bound to the count query in QueryBuilder::fetch: the
search params when use_where_clause set them, otherwise none at all. -/
def QueryBuilder.countParams (b : QueryBuilder) : List String :=
  match b.search_params with
  | some p => p
  | none => []

/-- The fetch query executed by QueryBuilder::fetch: the filtered base
query with the sort and limit fragment appended after a space. -/
def QueryBuilder.fetchQuery (b : QueryBuilder) : String :=
  b.filteredQuery ++ " " ++ b.sort_limit

/-- The parameters bound to the fetch query in QueryBuilder::fetch: search
params if set, else raw params if set, else the empty parameter list. -/
def QueryBuilder.allParams (b : QueryBuilder) : List String :=
  match b.search_params with
  | some e => e
  | none => match b.params with
    | some p => p
    | none => []

/-- store.rs QueryBuilder::fetch, relative to an abstract backend: evalCount
gives the single integer a count query returns for given bound parameters,
evalRows the row list a fetch query returns.  fetch fills the result with
the count (computed from the query before the sort and limit fragment is
appended), the recorded skipped value, and the fetched rows. -/
def QueryBuilder.fetch {T : Type} (evalCount : String → List String → Nat)
    (evalRows : String → List String → List T) (b : QueryBuilder) : StoreResult T :=
  { total := evalCount b.countQuery b.countParams
    skipped := b.skipped
    items := evalRows b.fetchQuery b.allParams }

/-- The result of running use_where_clause on a freshly built QueryBuilder
(params not set): unchanged when the text is empty or the produced clause
fragment is empty, otherwise the filter and search params are set. -/
def afterWhere (q : String) (c : SearchConfig)
    (f : String → String × List String) : QueryBuilder :=
  if c.text = "" then QueryBuilder.new q c
  else if (f c.text).fst = "" then QueryBuilder.new q c
  else { QueryBuilder.new q c with
          filter := some ("WHERE " ++ (f c.text).fst)
          search_params := some (f c.text).snd }

/-- On a fresh builder, use_where_clause always succeeds and computes
afterWhere. -/
theorem use_where_clause_new (q : String) (c : SearchConfig)
    (f : String → String × List String) :
    (QueryBuilder.new q c).use_where_clause f = .ok (afterWhere q c f) := by
  unfold QueryBuilder.use_where_clause afterWhere
  by_cases h : c.text = ""
  · simp [QueryBuilder.new, h]
  · by_cases h2 : (f c.text).fst = "" <;> simp [QueryBuilder.new, h, h2]

/-- SQLite executes the clause LIMIT x, y as LIMIT y OFFSET x: skip the
first x rows, then return at most y rows. -/
def sqliteLimitApply {α : Type} (x y : Nat) (rows : List α) : List α :=
  (rows.drop x).take y

/-! ## pool.rs -/

/-- A Rust std Mutex together with its poisoned flag. -/
structure RsMutex (α : Type) where
  poisoned : Bool
  value : α
deriving DecidableEq, Repr

/-- Rust mutex.lock().unwrap(): yields the protected value, and panics
(modelled as none) exactly when the mutex is poisoned. -/
def RsMutex.lockUnwrap {α : Type} (m : RsMutex α) : Option α :=
  if m.poisoned then none else some m.value

/-- pool.rs InnerPool: a mutex-protected Vec of items (the free list, with
the Vec end as the stack top) plus the min size (tuple field .1). -/
structure InnerPool (α : Type) where
  mutex : RsMutex (List α)
  minSize : Nat
deriving DecidableEq, Repr

/-- pool.rs InnerPool::acquire: lock().unwrap() (none on poison), then
v.pop().ok_or(false).  Returns the popped item and the updated pool, or
Except.error false when the free list is empty (the pool is unchanged and
the caller synthesizes a fresh item). -/
def InnerPool.acquire {α : Type} (p : InnerPool α) :
    Option (Except Bool α × InnerPool α) :=
  match p.mutex.lockUnwrap with
  | none => none
  | some v =>
    match v.getLast? with
    | none => some (.error false, p)
    | some x =>
      some (.ok x, { p with mutex := { p.mutex with value := v.dropLast } })

/-- pool.rs InnerPool::relase (spelling as in the source): lock().unwrap()
(none on poison), then push the item back only when the free list length is
strictly below the min size, otherwise drop it. -/
def InnerPool.relase {α : Type} (p : InnerPool α) (item : α) :
    Option (InnerPool α) :=
  (p.mutex.lockUnwrap).map fun v =>
    if v.length < p.minSize then
      { p with mutex := { p.mutex with value := v ++ [item] } }
    else p

/-- pool.rs PoolManager::available_items: lock().unwrap().len(). -/
def availableItems {α : Type} (p : InnerPool α) : Option Nat :=
  (p.mutex.lockUnwrap).map List.length

/-- The seeding loop of pool.rs PoolManager::new: push creator.create_item()
min_pool times. -/
def seedConns {α : Type} (creator : Unit → α) : Nat → List α
  | 0 => []
  | n + 1 => seedConns creator n ++ [creator ()]

/-- pool.rs PoolManager::new (the InnerPool it builds): a fresh unpoisoned
mutex around the eagerly seeded free list, with min size min_pool. -/
def PoolManager.newPool {α : Type} (min_pool : Nat) (creator : Unit → α) :
    InnerPool α :=
  { mutex := { poisoned := false, value := seedConns creator min_pool }
    minSize := min_pool }

/-- An observable pool event: get_pool_item (which acquires, and on an empty
free list creates a fresh item outside the free list), or the relase run by
PoolItem::drop handing some item back. -/
inductive PoolOp (α : Type) where
  | acquire
  | release (item : α)

/-- Effect of one pool event on the shared InnerPool (none models a
panic propagating from lock().unwrap()). -/
def poolStep {α : Type} (p : InnerPool α) : PoolOp α → Option (InnerPool α)
  | .acquire => (p.acquire).map (·.snd)
  | .release item => p.relase item

/-- Runs a sequence of pool events. -/
def runOps {α : Type} (p : InnerPool α) : List (PoolOp α) → Option (InnerPool α)
  | [] => some p
  | op :: ops => (poolStep p op).bind fun p2 => runOps p2 ops

/-- books.rs SqliteCreator::create_item relative to an abstract
SqliteStore::new: Box::new(SqliteStore::new(path).expect(..)).  The expect
turns a store-creation error into a panic (none); the Creator trait offers
no error channel. -/
def SqliteCreator.createItem {α : Type} (sqliteNew : String → Except BookError α)
    (path : String) : Unit → Option α :=
  fun _ =>
    match sqliteNew path with
    | .ok s => some s
    | .error _ => none

/-- The seeding loop of PoolManager::new run with a creator whose
create_item may panic: the first panic aborts the whole loop. -/
def seedConnsPanicking {α : Type} (creator : Unit → Option α) :
    Nat → Option (List α)
  | 0 => some []
  | n + 1 =>
    (seedConnsPanicking creator n).bind fun xs =>
      (creator ()).map fun x => xs ++ [x]

/-- pool.rs PoolManager::new run with a possibly panicking creator: none
when seeding panicked, otherwise the seeded pool. -/
def PoolManager.newPanicking {α : Type} (min_pool : Nat)
    (creator : Unit → Option α) : Option (InnerPool α) :=
  (seedConnsPanicking creator min_pool).map fun conns =>
    { mutex := { poisoned := false, value := conns }, minSize := min_pool }

/-! ## books.rs BookManager (pool registry) -/

/-- books.rs BookManager: the HashMap of named pools is modelled as an
association list with distinct keys, plus the optional current name. -/
structure BookManager (α : Type) where
  book_db_pools : List (String × α)
  current : Option String
deriving DecidableEq, Repr

/-- books.rs BookManager::remove_pool: remove_entry on the map; when an
entry was removed, clear current if current.is_some() and the removed entry
key equals the given name (the comparison exactly as written in the
source); return the removed pool.  Returns the removed pool (or none) and
the updated manager. -/
def BookManager.remove_pool {α : Type} (m : BookManager α) (name : String) :
    Option α × BookManager α :=
  match m.book_db_pools.find? (fun p => p.fst == name) with
  | some entry =>
    let m1 : BookManager α :=
      { m with book_db_pools := m.book_db_pools.eraseP (fun p => p.fst == name) }
    let m2 : BookManager α :=
      if m1.current.isSome && (entry.fst == name) then { m1 with current := none }
      else m1
    (some entry.snd, m2)
  | none => (none, m)

/-! ## store.rs SqliteStore: tables and record operations

The backing database is modelled as three tables: books (id to row),
authors and tags (book id to value, in insertion order), plus the next
rowid the backend would assign and the current unixepoch() clock.
DateTime values are unix timestamps (Int). -/

/-- A row of the books table. -/
structure BookRec where
  cover_img : Option String
  description : Option String
  isbn : String
  lang : String
  title : String
  sub_title : Option String
  publisher : Option String
  publish_date : Option Int
  created : Int
  updated : Int
deriving DecidableEq, Repr

/-- models.rs Book. -/
structure Book where
  authors : List String
  cover_img : Option String
  description : Option String
  isbn : String
  lang : String
  tags : Option (List String)
  title : String
  sub_title : Option String
  publisher : Option String
  publish_date : Option Int
  id : Int
  created : Int
  updated : Int
deriving DecidableEq, Repr

/-- The sqlite database state. -/
structure DBState where
  books : List (Int × BookRec)
  authors : List (Int × String)
  tags : List (Int × String)
  nextId : Int
  now : Int
deriving DecidableEq, Repr

/-- Whether chrono Utc.timestamp_opt(t, 0) yields a single DateTime; the
bounds approximate the chrono DateTime range of about plus or minus 262000
years. -/
def timestampOk (t : Int) : Bool :=
  decide (-8334601228800 ≤ t) && decide (t ≤ 8210266876799)

/-- store.rs convert_timestamp: the timestamp back, or a Generic error when
chrono cannot represent it. -/
def convertTimestamp (t : Int) : Except BookError Int :=
  if timestampOk t then .ok t
  else .error (.Generic "Invalid timestamp conversion")

/-- Rust Vec sort for strings, lexicographic (insertion sort; stable, same
sorted result as the source sort). -/
def insertStr (a : String) : List String → List String
  | [] => [a]
  | b :: bs => if a ≤ b then a :: b :: bs else b :: insertStr a bs

/-- See insertStr. -/
def sortStrings : List String → List String
  | [] => []
  | a :: rest => insertStr a (sortStrings rest)

/-- Rust Vec dedup: removes consecutive duplicates. -/
def dedupAdj : List String → List String
  | [] => []
  | [a] => [a]
  | a :: b :: rest =>
    if a == b then dedupAdj (b :: rest) else a :: dedupAdj (b :: rest)

/-- The row the books INSERT of add_book writes: the book fields, with
created and updated set to unixepoch(). -/
def rowOfBook (book : Book) (now : Int) : BookRec :=
  { cover_img := book.cover_img
    description := book.description
    isbn := book.isbn
    lang := book.lang
    title := book.title
    sub_title := book.sub_title
    publisher := book.publisher
    publish_date := book.publish_date
    created := now
    updated := now }

/-- store.rs SqliteStore::add_book.  Runs inside a transaction: the error
path returns the original state (rollback), the success path the committed
state together with the mutated book (id and read-back timestamps set,
authors and tags sorted). -/
def addBook (st : DBState) (book : Book) : Except BookError Book × DBState :=
  let book_id := st.nextId
  let tx1 : DBState :=
    { st with
      books := st.books ++ [(book_id, rowOfBook book st.now)]
      nextId := st.nextId + 1 }
  if book_id ≤ 0 then
    (.error (.Generic ("return row id is invalid: " ++ toString book_id)), st)
  else
    let tx2 : DBState :=
      { tx1 with authors := tx1.authors ++ book.authors.map (fun a => (book_id, a)) }
    let tx3 : DBState :=
      match book.tags with
      | some tags => { tx2 with tags := tx2.tags ++ tags.map (fun t => (book_id, t)) }
      | none => tx2
    match tx3.books.find? (fun p => p.fst == book_id) with
    | none => (.error (BookError.fromRusqlite .QueryReturnedNoRows), st)
    | some pr =>
      match convertTimestamp pr.snd.created, convertTimestamp pr.snd.updated with
      | .ok c, .ok u =>
        let book2 : Book :=
          { book with
            id := book_id
            created := c
            updated := u
            authors := sortStrings book.authors
            tags := book.tags.map sortStrings }
        (.ok book2, tx3)
      | .error e, _ => (.error e, st)
      | .ok _, .error e => (.error e, st)

/-- store.rs update_book_tags: delete the existing tag rows of the book;
an absent or empty tag list writes nothing back (an empty one is
normalized to None on the book); otherwise sort, dedup and reinsert.
Cannot fail. -/
def updateBookTags (st : DBState) (book : Book) : Book × DBState :=
  let st1 : DBState := { st with tags := st.tags.filter (fun p => !(p.fst == book.id)) }
  match book.tags with
  | none => (book, st1)
  | some t =>
    if t.isEmpty then ({ book with tags := none }, st1)
    else
      let t2 := dedupAdj (sortStrings t)
      ({ book with tags := some t2 },
       { st1 with tags := st1.tags ++ t2.map (fun x => (book.id, x)) })

/-- store.rs update_book_authors: EmptyAuthors when the author list is
empty; otherwise delete the existing author rows, sort the list and
reinsert it. -/
def updateBookAuthors (st : DBState) (book : Book) :
    Except BookError (Book × DBState) :=
  if book.authors.isEmpty then .error .EmptyAuthors
  else
    let st1 : DBState :=
      { st with authors := st.authors.filter (fun p => !(p.fst == book.id)) }
    let a2 := sortStrings book.authors
    .ok ({ book with authors := a2 },
         { st1 with authors := st1.authors ++ a2.map (fun x => (book.id, x)) })

/-- The UPDATE books SET ... WHERE id = :id statement of update_book:
rewrites every column of the books row with the given id (created is not in
the column list and is kept; updated becomes unixepoch()). -/
def updateBooksRow (st : DBState) (book : Book) : DBState :=
  { st with
    books := st.books.map (fun p =>
      if p.fst == book.id then
        (p.fst,
         { p.snd with
           cover_img := book.cover_img
           description := book.description
           isbn := book.isbn
           lang := book.lang
           title := book.title
           sub_title := book.sub_title
           publisher := book.publisher
           publish_date := book.publish_date
           updated := st.now })
      else p) }

/-- store.rs SqliteStore::update_book.  Runs inside a transaction: UPDATE
the books row, then update_book_tags, then update_book_authors; any error
rolls back to the original state, otherwise the transaction commits. -/
def updateBook (st : DBState) (book : Book) : Except BookError Book × DBState :=
  match updateBookAuthors (updateBookTags (updateBooksRow st book) book).snd
      (updateBookTags (updateBooksRow st book) book).fst with
  | .error e => (.error e, st)
  | .ok r2 => (.ok r2.fst, r2.snd)

/-- store.rs SqliteStore::delete_book_by_id: DELETE FROM books WHERE
id = ?; always succeeds. -/
def deleteBookById (st : DBState) (id : Int) : Except BookError Unit × DBState :=
  (.ok (), { st with books := st.books.filter (fun p => !(p.fst == id)) })

/-- store.rs load_authors_of_book: the author names of the book, ORDER BY
name ASC. -/
def loadAuthorsOfBook (st : DBState) (id : Int) : List String :=
  sortStrings ((st.authors.filter (fun p => p.fst == id)).map Prod.snd)

/-- store.rs load_tags_of_book: the tags of the book, ORDER BY tag ASC. -/
def loadTagsOfBook (st : DBState) (id : Int) : List String :=
  sortStrings ((st.tags.filter (fun p => p.fst == id)).map Prod.snd)

/-- store.rs map_sqlite_row_to_book: assembles a Book from a books row,
loading authors and tags; a tags result of length 0 becomes None.  The
expect calls on convert_timestamp panic when a stored timestamp is out of
the chrono range: none models that panic. -/
def mapSqliteRowToBook (st : DBState) (id : Int) (row : BookRec) : Option Book :=
  let pubd : Option (Option Int) :=
    match row.publish_date with
    | none => some none
    | some r =>
      match convertTimestamp r with
      | .ok v => some (some v)
      | .error _ => none
  pubd.bind fun pubd =>
    match convertTimestamp row.created, convertTimestamp row.updated with
    | .ok c, .ok u =>
      some
        { authors := loadAuthorsOfBook st id
          cover_img := row.cover_img
          description := row.description
          isbn := row.isbn
          lang := row.lang
          tags :=
            match loadTagsOfBook st id with
            | [] => none
            | ts => some ts
          title := row.title
          sub_title := row.sub_title
          publisher := row.publisher
          publish_date := pubd
          id := id
          created := c
          updated := u }
    | _, _ => none

/-- The query_row of get_book: the first books row with the given id, or
the rusqlite QueryReturnedNoRows error. -/
def queryRowBooks (st : DBState) (id : Int) :
    Except RusqliteError (Int × BookRec) :=
  match st.books.find? (fun p => p.fst == id) with
  | some pr => .ok pr
  | none => .error .QueryReturnedNoRows

/-- store.rs SqliteStore::get_book: query_row for the id; the rusqlite
error is translated through From (QueryReturnedNoRows to NotFound); on a
found row the book is assembled (whose timestamp expect calls may panic:
none). -/
def getBook (st : DBState) (id : Int) : Option (Except BookError Book) :=
  match queryRowBooks st id with
  | .error e => some (.error (BookError.fromRusqlite e))
  | .ok pr => (mapSqliteRowToBook st pr.fst pr.snd).map Except.ok

/-! ## Theorems -/

/-- String append is associative. -/
theorem strAppendAssoc (a b c : String) : (a ++ b) ++ c = a ++ (b ++ c) := by
  refine String.ext ?_
  simp [String.data_append]

/-- rsPop commutes past a left part when the right part is non-empty. -/
theorem rsPop_append (s u : String) (h : u.data ≠ []) :
    rsPop (s ++ u) = s ++ rsPop u := by
  refine String.ext ?_
  rw [rsPop, rsPop, String.data_append]
  show (s.data ++ u.data).dropLast = s.data ++ u.data.dropLast
  exact List.dropLast_append_of_ne_nil _ h

/-- C1: the claim says the fetch query of a finalized request with take = t
and skip_page = s > 0 ends in a clause limiting the result to t rows at row
offset t times s.  The code emits LIMIT t, s instead, which SQLite reads as
LIMIT s OFFSET t: at take 20, skip_page 3 (the example of the use_skip_page
doc comment in models.rs, which promises 60 skipped rows) the emitted
clause is LIMIT 20, 3, returning the 3 rows 20, 21, 22 of a 100-row table,
while the claim demands the 20 rows starting at offset 60. -/
theorem C1_limit_clause_bug :
    (QueryBuilder.new SELECT_BOOKS_QUERY
        ((((SearchConfig.new "").use_take 20).use_skip_page 3).build)).sort_limit
      = "LIMIT 20, 3"
    ∧ sqliteLimitApply 20 3 (List.range 100) = [20, 21, 22]
    ∧ ((List.range 100).drop (20 * 3)).take 20
        ≠ sqliteLimitApply 20 3 (List.range 100) := by
  refine ⟨rfl, by decide, by decide⟩

/-- C5 counterexample: a sort column token that is not one of the known
books columns is spliced verbatim into the ORDER BY clause; it is neither
rejected nor ignored, so no allow-list check is applied. -/
theorem C5_no_allowlist_counterexample :
    (QueryBuilder.new SELECT_BOOKS_QUERY
        (((SearchConfig.new "").use_sort
          [⟨"isbn; DROP TABLE books --", SortOrder.Asc⟩]).build)).sort_limit
      = "ORDER BY isbn; DROP TABLE books -- ASC "
    ∧ "isbn; DROP TABLE books --" ∉ knownColumns := by
  refine ⟨rfl, by decide⟩

/-- C5 amended: query construction applies no allow-list check at all; for
every sort column token t, malformed or not, the generated ORDER BY clause
interpolates t verbatim. -/
theorem C5_token_spliced_verbatim (q t : String) :
    (QueryBuilder.new q
        (((SearchConfig.new "").use_sort [⟨t, SortOrder.Asc⟩]).build)).sort_limit
      = "ORDER BY " ++ t ++ " ASC " := by
  show rsPop (("" ++ "ORDER BY") ++ ((" " ++ t) ++ " ASC,")) ++ " "
      = "ORDER BY " ++ t ++ " ASC "
  have hc : (" ASC," : String).data ≠ [] := by decide
  have hu : ((" " ++ t) ++ " ASC,").data ≠ [] := by
    rw [String.data_append]
    simp [hc]
  rw [rsPop_append _ _ hu, rsPop_append _ _ hc]
  show ("ORDER BY" ++ ((" " ++ t) ++ " ASC")) ++ " "
      = ("ORDER BY " ++ t) ++ " ASC "
  rw [← strAppendAssoc "ORDER BY" (" " ++ t) " ASC",
      ← strAppendAssoc "ORDER BY" " " t]
  show (("ORDER BY " ++ t) ++ " ASC") ++ " " = ("ORDER BY " ++ t) ++ " ASC "
  rw [strAppendAssoc]
  congr 1

/-- C9: evaluation of remove_pool at the failing input.  With pools a and
b registered and current set to b, removing pool a returns pool a but also
clears current, because the source compares the removed entry key with the
argument name (a comparison that always holds) instead of comparing the
current name with the removed name. -/
theorem C9_remove_pool_clears_other_current :
    BookManager.remove_pool
        (⟨[("a", 1), ("b", 2)], some "b"⟩ : BookManager Nat) "a"
      = (some 1, ⟨[("b", 2)], none⟩) := by
  decide

/-- C3 counterexample: on a pool whose free-list mutex is poisoned, every
pool operation panics (the none result models the panic of
lock().unwrap()); none of them recovers the state and continues, so the
poisoning is fatal, contrary to the claim. -/
theorem C3_poisoned_operations_panic :
    InnerPool.acquire (⟨⟨true, [0, 1]⟩, 5⟩ : InnerPool Nat) = none
    ∧ InnerPool.relase (⟨⟨true, [0, 1]⟩, 5⟩ : InnerPool Nat) 9 = none
    ∧ availableItems (⟨⟨true, [0, 1]⟩, 5⟩ : InnerPool Nat) = none := by
  refine ⟨rfl, rfl, rfl⟩

/-- C3 amended: if the free-list mutex is poisoned, acquire, relase and
available_items all panic via lock().unwrap() (modelled as none); the pool
neither recovers the last-known state nor returns an error. -/
theorem C3_poisoned_mutex_is_fatal {α : Type} (p : InnerPool α) (x : α)
    (h : p.mutex.poisoned = true) :
    p.acquire = none ∧ p.relase x = none ∧ availableItems p = none := by
  refine ⟨?_, ?_, ?_⟩ <;>
    simp [InnerPool.acquire, InnerPool.relase, availableItems,
      RsMutex.lockUnwrap, h]

/-- C3 witness: the amended theorem applied to a concrete poisoned pool. -/
theorem C3_poisoned_mutex_is_fatal_witness :
    InnerPool.acquire (⟨⟨true, [3]⟩, 2⟩ : InnerPool Nat) = none
    ∧ InnerPool.relase (⟨⟨true, [3]⟩, 2⟩ : InnerPool Nat) 7 = none
    ∧ availableItems (⟨⟨true, [3]⟩, 2⟩ : InnerPool Nat) = none :=
  C3_poisoned_mutex_is_fatal (⟨⟨true, [3]⟩, 2⟩ : InnerPool Nat) 7 rfl

/-- C8 counterexample: with a creator whose underlying SqliteStore::new
fails, constructing a pool of min size 5 panics (none models the panic of
the expect inside create_item, which terminates rather than returning);
the caller receives no propagated error value, contrary to the claim. -/
theorem C8_failing_creator_panics_counterexample :
    PoolManager.newPanicking 5
        (SqliteCreator.createItem
          (fun _ => (Except.error (BookError.Generic "no db") : Except BookError Unit))
          "books.db")
      = none := by
  rfl

/-- C8 amended: the Creator trait has no error channel; when
SqliteStore::new fails for the configured path, create_item panics (the
expect), so eager seeding in PoolManager::new panics for every positive min
size instead of aborting with a propagated error. -/
theorem C8_failing_creator_aborts_by_panic {α : Type}
    (sqliteNew : String → Except BookError α) (path : String) (e : BookError)
    (min_pool : Nat) (hm : 0 < min_pool) (hfail : sqliteNew path = .error e) :
    PoolManager.newPanicking min_pool (SqliteCreator.createItem sqliteNew path)
      = none := by
  obtain ⟨n, rfl⟩ : ∃ n, min_pool = n + 1 := ⟨min_pool - 1, by omega⟩
  unfold PoolManager.newPanicking seedConnsPanicking
  cases hseed : seedConnsPanicking (SqliteCreator.createItem sqliteNew path) n with
  | none => simp
  | some xs => simp [SqliteCreator.createItem, hfail]

/-- One pool event keeps a within-bound free list within bound and never
changes the min size. -/
theorem poolStep_invariant {α : Type} (p p2 : InnerPool α) (op : PoolOp α)
    (hlen : p.mutex.value.length ≤ p.minSize) (h : poolStep p op = some p2) :
    p2.mutex.value.length ≤ p2.minSize ∧ p2.minSize = p.minSize := by
  cases op with
  | acquire =>
    simp only [poolStep, InnerPool.acquire, RsMutex.lockUnwrap] at h
    by_cases hp : p.mutex.poisoned
    · simp [hp] at h
    · simp only [hp, if_false, Bool.false_eq_true] at h
      cases hg : p.mutex.value.getLast? with
      | none => rw [hg] at h; simp at h; rw [← h]; exact ⟨hlen, rfl⟩
      | some x =>
        rw [hg] at h; simp at h; rw [← h]
        refine ⟨?_, rfl⟩
        have : p.mutex.value.dropLast.length = p.mutex.value.length - 1 :=
          List.length_dropLast _
        simp only [this]
        omega
  | release item =>
    simp only [poolStep, InnerPool.relase, RsMutex.lockUnwrap] at h
    by_cases hp : p.mutex.poisoned
    · simp [hp] at h
    · rw [if_neg hp] at h
      have h2 := Option.some.inj h
      simp only [] at h2
      by_cases hlt : p.mutex.value.length < p.minSize
      · rw [if_pos hlt] at h2
        rw [← h2]
        refine ⟨?_, rfl⟩
        simp
        omega
      · rw [if_neg hlt] at h2
        rw [← h2]
        exact ⟨hlen, rfl⟩

/-- Running any event sequence keeps a within-bound free list within bound
and preserves the min size. -/
theorem runOps_invariant {α : Type} (ops : List (PoolOp α)) :
    ∀ p p2 : InnerPool α, p.mutex.value.length ≤ p.minSize →
      runOps p ops = some p2 →
      p2.mutex.value.length ≤ p2.minSize ∧ p2.minSize = p.minSize := by
  induction ops with
  | nil =>
    intro p p2 hlen h
    have h2 : p = p2 := Option.some.inj h
    rw [← h2]
    exact ⟨hlen, rfl⟩
  | cons op ops ih =>
    intro p p2 hlen h
    simp only [runOps] at h
    cases hs : poolStep p op with
    | none => rw [hs] at h; simp at h
    | some p1 =>
      rw [hs] at h
      have h3 : runOps p1 ops = some p2 := h
      obtain ⟨h1, hmin⟩ := poolStep_invariant p p1 op hlen hs
      obtain ⟨g1, gmin⟩ := ih p1 p2 h1 h3
      exact ⟨g1, gmin.trans hmin⟩

/-- The eager seeding loop creates exactly min_pool items. -/
theorem seedConns_length {α : Type} (creator : Unit → α) (n : Nat) :
    (seedConns creator n).length = n := by
  induction n with
  | zero => rfl
  | succ n ih => simp [seedConns, ih]

/-- C4: starting from a pool constructed with min size min_pool, any
sequence of get_pool_item acquisitions and drop-triggered relase calls that
completes without panicking leaves the free list with at most min_pool
items: relase pushes the item back only when the free list is strictly
below min_pool and otherwise discards it. -/
theorem C4_free_list_never_exceeds_min {α : Type} (creator : Unit → α)
    (min_pool : Nat) (ops : List (PoolOp α)) (p2 : InnerPool α)
    (h : runOps (PoolManager.newPool min_pool creator) ops = some p2) :
    p2.mutex.value.length ≤ min_pool := by
  have h0 : (PoolManager.newPool min_pool creator).mutex.value.length
      ≤ (PoolManager.newPool min_pool creator).minSize := by
    simp [PoolManager.newPool, seedConns_length]
  obtain ⟨h1, hmin⟩ := runOps_invariant ops _ p2 h0 h
  rw [hmin] at h1
  exact h1

/-- C4 witness: the theorem applied to a concrete run: a pool of min size
2, one acquisition, then two releases; the second release finds the free
list full and discards, leaving 2 items. -/
theorem C4_free_list_never_exceeds_min_witness :
    (⟨⟨false, [0, 5]⟩, 2⟩ : InnerPool Nat).mutex.value.length ≤ 2 :=
  C4_free_list_never_exceeds_min (fun _ => 0) 2
    [.acquire, .release 5, .release 6] (⟨⟨false, [0, 5]⟩, 2⟩ : InnerPool Nat)
    (by decide)

/-- C8 witness: the amended theorem applied to a concretely failing
creator. -/
theorem C8_failing_creator_aborts_by_panic_witness :
    PoolManager.newPanicking 5
        (SqliteCreator.createItem
          (fun _ => (Except.error (BookError.Generic "no db") : Except BookError Nat))
          "books.db")
      = none :=
  C8_failing_creator_aborts_by_panic
    (fun _ => (Except.error (BookError.Generic "no db") : Except BookError Nat))
    "books.db" (BookError.Generic "no db") 5 (by decide) rfl

/-- C10: with non-empty filter text and a filter-clause function returning
an empty clause fragment, use_where_clause succeeds leaving the builder
unchanged: no WHERE filter, no search parameters, and the count query,
fetch query and bound parameters are exactly those of the same request
with empty text. -/
theorem C10_empty_clause_fragment (q : String) (cfg : SearchConfig)
    (f : String → String × List String) (ht : cfg.text ≠ "")
    (hf : (f cfg.text).fst = "") :
    (QueryBuilder.new q cfg).use_where_clause f = .ok (QueryBuilder.new q cfg)
    ∧ (QueryBuilder.new q cfg).filter = none
    ∧ (QueryBuilder.new q cfg).search_params = none
    ∧ (QueryBuilder.new q cfg).countQuery
        = (QueryBuilder.new q { cfg with text := "" }).countQuery
    ∧ (QueryBuilder.new q cfg).fetchQuery
        = (QueryBuilder.new q { cfg with text := "" }).fetchQuery
    ∧ (QueryBuilder.new q cfg).countParams
        = (QueryBuilder.new q { cfg with text := "" }).countParams
    ∧ (QueryBuilder.new q cfg).allParams
        = (QueryBuilder.new q { cfg with text := "" }).allParams := by
  refine ⟨?_, rfl, rfl, rfl, rfl, rfl, rfl⟩
  simp only [QueryBuilder.use_where_clause, QueryBuilder.new]
  simp [ht, hf]

/-- C10 witness: the theorem applied to concrete text abc and a function
returning the empty clause. -/
theorem C10_empty_clause_fragment_witness :
    (QueryBuilder.new "SELECT DISTINCT tag FROM tags"
        (SearchConfig.new "abc")).use_where_clause (fun _ => ("", ["x"]))
      = .ok (QueryBuilder.new "SELECT DISTINCT tag FROM tags" (SearchConfig.new "abc"))
    ∧ (QueryBuilder.new "SELECT DISTINCT tag FROM tags"
        (SearchConfig.new "abc")).filter = none
    ∧ (QueryBuilder.new "SELECT DISTINCT tag FROM tags"
        (SearchConfig.new "abc")).search_params = none
    ∧ (QueryBuilder.new "SELECT DISTINCT tag FROM tags"
        (SearchConfig.new "abc")).countQuery
      = (QueryBuilder.new "SELECT DISTINCT tag FROM tags"
          { SearchConfig.new "abc" with text := "" }).countQuery
    ∧ (QueryBuilder.new "SELECT DISTINCT tag FROM tags"
        (SearchConfig.new "abc")).fetchQuery
      = (QueryBuilder.new "SELECT DISTINCT tag FROM tags"
          { SearchConfig.new "abc" with text := "" }).fetchQuery
    ∧ (QueryBuilder.new "SELECT DISTINCT tag FROM tags"
        (SearchConfig.new "abc")).countParams
      = (QueryBuilder.new "SELECT DISTINCT tag FROM tags"
          { SearchConfig.new "abc" with text := "" }).countParams
    ∧ (QueryBuilder.new "SELECT DISTINCT tag FROM tags"
        (SearchConfig.new "abc")).allParams
      = (QueryBuilder.new "SELECT DISTINCT tag FROM tags"
          { SearchConfig.new "abc" with text := "" }).allParams :=
  C10_empty_clause_fragment "SELECT DISTINCT tag FROM tags"
    (SearchConfig.new "abc") (fun _ => ("", ["x"])) (by decide) rfl

/-- afterWhere keeps the base query. -/
theorem afterWhere_query (q : String) (c : SearchConfig)
    (f : String → String × List String) : (afterWhere q c f).query = q := by
  unfold afterWhere
  split_ifs <;> rfl

/-- The filter afterWhere sets depends only on the text and the
filter-clause function. -/
theorem afterWhere_filter (q : String) (c : SearchConfig)
    (f : String → String × List String) :
    (afterWhere q c f).filter =
      (if c.text = "" then none else if (f c.text).fst = "" then none
       else some ("WHERE " ++ (f c.text).fst)) := by
  unfold afterWhere
  split_ifs <;> rfl

/-- The search parameters afterWhere sets depend only on the text and the
filter-clause function. -/
theorem afterWhere_search_params (q : String) (c : SearchConfig)
    (f : String → String × List String) :
    (afterWhere q c f).search_params =
      (if c.text = "" then none else if (f c.text).fst = "" then none
       else some (f c.text).snd) := by
  unfold afterWhere
  split_ifs <;> rfl

/-- C6: for a fixed base query and filter-clause function, the total of the
fetched result depends only on the filter text: two finalized requests
differing only in take and skip_page produce the same total, because the
count query is built from the filtered base query before the ORDER BY and
LIMIT fragment is appended. -/
theorem C6_total_pagination_independent {T : Type}
    (evalCount : String → List String → Nat)
    (evalRows : String → List String → List T)
    (q : String) (f : String → String × List String) (c1 c2 : SearchConfig)
    (b1 b2 : QueryBuilder) (htext : c1.text = c2.text) (_hsort : c1.sort = c2.sort)
    (h1 : (QueryBuilder.new q c1).use_where_clause f = .ok b1)
    (h2 : (QueryBuilder.new q c2).use_where_clause f = .ok b2) :
    (QueryBuilder.fetch evalCount evalRows b1).total
      = (QueryBuilder.fetch evalCount evalRows b2).total := by
  rw [use_where_clause_new] at h1 h2
  have e1 : afterWhere q c1 f = b1 := Except.ok.inj h1
  have e2 : afterWhere q c2 f = b2 := Except.ok.inj h2
  rw [← e1, ← e2]
  show evalCount (afterWhere q c1 f).countQuery (afterWhere q c1 f).countParams
      = evalCount (afterWhere q c2 f).countQuery (afterWhere q c2 f).countParams
  have hq : (afterWhere q c1 f).countQuery = (afterWhere q c2 f).countQuery := by
    unfold QueryBuilder.countQuery QueryBuilder.filteredQuery
    rw [afterWhere_query, afterWhere_query, afterWhere_filter, afterWhere_filter,
      htext]
  have hp : (afterWhere q c1 f).countParams = (afterWhere q c2 f).countParams := by
    unfold QueryBuilder.countParams
    rw [afterWhere_search_params, afterWhere_search_params, htext]
  rw [hq, hp]

/-- C6 witness: the theorem applied to the tags query with text thriller,
once with take 2 and skip_page 1 and once without pagination. -/
theorem C6_total_pagination_independent_witness :
    (QueryBuilder.fetch (fun _ _ => 7) (fun _ _ => ([] : List Nat))
        (afterWhere "SELECT DISTINCT tag FROM tags"
          (((SearchConfig.new "thriller").use_take 2).use_skip_page 1)
          (fun txt => ("tag LIKE ?", [txt])))).total
      = (QueryBuilder.fetch (fun _ _ => 7) (fun _ _ => ([] : List Nat))
          (afterWhere "SELECT DISTINCT tag FROM tags"
            (SearchConfig.new "thriller")
            (fun txt => ("tag LIKE ?", [txt])))).total :=
  C6_total_pagination_independent (fun _ _ => 7) (fun _ _ => ([] : List Nat))
    "SELECT DISTINCT tag FROM tags" (fun txt => ("tag LIKE ?", [txt]))
    (((SearchConfig.new "thriller").use_take 2).use_skip_page 1)
    (SearchConfig.new "thriller") _ _ rfl rfl
    (use_where_clause_new _ _ _) (use_where_clause_new _ _ _)

/-- update_book_tags never touches the author list of the book. -/
theorem updateBookTags_fst_authors (st : DBState) (b : Book) :
    (updateBookTags st b).fst.authors = b.authors := by
  rcases hb : b.tags with _ | t
  · simp [updateBookTags, hb]
  · by_cases h : t.isEmpty <;> simp [updateBookTags, hb, h]

/-- update_book_authors on an empty author list is the EmptyAuthors
error. -/
theorem updateBookAuthors_empty (st : DBState) (b : Book)
    (h : b.authors = []) : updateBookAuthors st b = .error .EmptyAuthors := by
  simp [updateBookAuthors, h]

/-- C2: the claim as amended.  For every book with an empty author list,
update_book fails with the EmptyAuthors validation error and commits
nothing: the returned state is exactly the prior state.  add_book, by
contrast, performs no such validation: under the normal backend conditions
(positive fresh rowid, representable clock) it succeeds. -/
theorem C2_empty_authors_update_rejects_add_accepts (st : DBState) (book : Book)
    (h : book.authors = []) (hid : 0 < st.nextId)
    (hfresh : st.books.find? (fun p => p.fst == st.nextId) = none)
    (hts : timestampOk st.now = true) :
    updateBook st book = (.error BookError.EmptyAuthors, st)
    ∧ (addBook st book).fst.isOk = true := by
  constructor
  · unfold updateBook
    rw [updateBookAuthors_empty _ _ (by rw [updateBookTags_fst_authors]; exact h)]
  · unfold addBook
    rw [if_neg (by omega : ¬ st.nextId ≤ 0)]
    have hconv : convertTimestamp st.now = .ok st.now := by
      simp [convertTimestamp, hts]
    rcases htags : book.tags with _ | tags <;>
      simp [htags, hfresh, hconv, rowOfBook, Except.isOk, Except.toBool]

/-- C2 witness: the amended theorem applied to an empty store and a
concrete book without authors. -/
theorem C2_empty_authors_witness :
    updateBook ⟨[], [], [], 1, 0⟩
        ⟨[], none, none, "i", "en", none, "t", none, none, none, 0, 0, 0⟩
      = (.error BookError.EmptyAuthors, ⟨[], [], [], 1, 0⟩)
    ∧ (addBook ⟨[], [], [], 1, 0⟩
        ⟨[], none, none, "i", "en", none, "t", none, none, none, 0, 0, 0⟩).fst.isOk
      = true :=
  C2_empty_authors_update_rejects_add_accepts ⟨[], [], [], 1, 0⟩
    ⟨[], none, none, "i", "en", none, "t", none, none, none, 0, 0, 0⟩
    rfl (by decide) rfl (by decide)

/-- C2 counterexample: the claim as stated is false for add_book: on an
empty store, adding a concrete book whose author list is empty succeeds
with no validation error (and commits the write), instead of failing with
ValidationFailed / EmptyAuthors. -/
theorem C2_add_book_no_validation_counterexample :
    (⟨[], none, none, "i", "en", none, "t", none, none, none, 0, 0, 0⟩ : Book).authors
      = []
    ∧ (addBook ⟨[], [], [], 1, 0⟩
        ⟨[], none, none, "i", "en", none, "t", none, none, none, 0, 0, 0⟩).fst
      = .ok ⟨[], none, none, "i", "en", none, "t", none, none, none, 1, 0, 0⟩ := by
  exact ⟨rfl, rfl⟩

/-- A row removed by the books DELETE can no longer be found. -/
theorem find?_filter_beq_none {β : Type} (l : List (Int × β)) (id : Int) :
    (l.filter (fun p => !(p.fst == id))).find? (fun p => p.fst == id) = none := by
  induction l with
  | nil => rfl
  | cons a l ih =>
    by_cases h : a.fst = id
    · simp [List.filter_cons, h, ih]
    · simp [List.filter_cons, List.find?_cons, h, ih]

/-- C7: after delete_book_by_id(id), get_book(id) finds no books row, the
backend reports QueryReturnedNoRows, and the From conversion at the store
boundary turns it into the generic NotFound error. -/
theorem C7_delete_then_get_not_found (st : DBState) (id : Int) :
    getBook (deleteBookById st id).snd id = some (.error BookError.NotFound) := by
  simp only [getBook, queryRowBooks, deleteBookById]
  rw [find?_filter_beq_none]
  rfl

end Bookshelf
